import Mathlib

/-!
Verification of the VAAPI filter module (modules/hw/vaapi/filters.c).

The development shallowly embeds the module: C floats are modelled as exact
rationals, driver handles as natural numbers, fallible driver calls as
oracle booleans, and per-frame state as explicit values.  Every definition
mirrors the corresponding C function; constants taken from external headers
(libva, vlc_common.h) are declared with a comment naming their origin.
-/

namespace VaapiFilters

/-! ## Common structures and macros -/

/-- Return codes, values from the external header vlc_common.h. -/
def VLC_SUCCESS : Int := 0

/-- Generic error code, value from the external header vlc_common.h. -/
def VLC_EGENERIC : Int := -666

/-- Allocation error code, value from the external header vlc_common.h. -/
def VLC_ENOMEM : Int := -667

/-- Invalid buffer/config/context identifier, from the external libva header. -/
def VA_INVALID_ID : Nat := 4294967295

/-- struct range { float min_value; float max_value; } with floats as rationals. -/
structure Range where
  min_value : ℚ
  max_value : ℚ
deriving DecidableEq

/-- The GET_DRV_SIGMA macro:
(vlc_sigma - vlc_range.min) * (drv_range.max - drv_range.min)
  / (vlc_range.max - vlc_range.min) + drv_range.min. -/
def GET_DRV_SIGMA (vlc_sigma : ℚ) (vlc_range drv_range : Range) : ℚ :=
  (vlc_sigma - vlc_range.min_value) *
    (drv_range.max_value - drv_range.min_value) /
    (vlc_range.max_value - vlc_range.min_value) + drv_range.min_value

/-- The VLC_CLIP macro from vlc_common.h: __MIN(__MAX(v, lo), hi). -/
def VLC_CLIP (v lo hi : ℚ) : ℚ := min (max v lo) hi

/-! ## Adjust structures and constants -/

/-- NUM_ADJUST_MODES, the size of the four adjust tables. -/
abbrev NUM_ADJUST_MODES : Nat := 4

/-- VAProcColorBalanceType from the external libva header va_vpp.h
(eight values before VAProcColorBalanceCount). -/
inductive VAProcColorBalanceType where
  | cbNone
  | hue
  | saturation
  | brightness
  | contrast
  | autoSaturation
  | autoBrightness
  | autoContrast
deriving DecidableEq

/-- VAProcColorBalanceCount from the external libva header va_vpp.h. -/
def VAProcColorBalanceCount : Nat := 8

/-- VAProcFilterType values used by this module (external libva header). -/
inductive VAProcFilterType where
  | colorBalance
  | noiseReduction
  | sharpening
  | deinterlacing
deriving DecidableEq

/-- The table va_adjust_modes[NUM_ADJUST_MODES]. -/
def va_adjust_modes : Fin NUM_ADJUST_MODES → VAProcColorBalanceType
  | ⟨0, _⟩ => .contrast
  | ⟨1, _⟩ => .brightness
  | ⟨2, _⟩ => .hue
  | ⟨3, _⟩ => .saturation

/-- The table adjust_params_names[NUM_ADJUST_MODES]. -/
def adjust_params_names : Fin NUM_ADJUST_MODES → String
  | ⟨0, _⟩ => "contrast"
  | ⟨1, _⟩ => "brightness"
  | ⟨2, _⟩ => "hue"
  | ⟨3, _⟩ => "saturation"

/-- The table vlc_adjust_sigma_ranges[NUM_ADJUST_MODES]. -/
def vlc_adjust_sigma_ranges : Fin NUM_ADJUST_MODES → Range
  | ⟨0, _⟩ => ⟨0, 2⟩
  | ⟨1, _⟩ => ⟨0, 2⟩
  | ⟨2, _⟩ => ⟨-180, 180⟩
  | ⟨3, _⟩ => ⟨0, 3⟩

/-- One entry of adjust_params.sigma: atomic driver value, driver range,
availability flag. -/
structure SigmaSlot where
  drv_value : ℚ
  drv_range : Range
  is_available : Bool
deriving DecidableEq

/-- struct adjust_params: the four sigma slots, as the C array
sigma[NUM_ADJUST_MODES] with indices CONT, LUM, HUE, SAT. -/
structure AdjustParams where
  cont : SigmaSlot
  lum : SigmaSlot
  hue : SigmaSlot
  sat : SigmaSlot
deriving DecidableEq

/-- Array indexing sigma[i]. -/
def AdjustParams.sigma (p : AdjustParams) : Fin NUM_ADJUST_MODES → SigmaSlot
  | ⟨0, _⟩ => p.cont
  | ⟨1, _⟩ => p.lum
  | ⟨2, _⟩ => p.hue
  | ⟨3, _⟩ => p.sat

/-- Array update sigma[i] = s. -/
def AdjustParams.setSigma (p : AdjustParams) :
    Fin NUM_ADJUST_MODES → SigmaSlot → AdjustParams
  | ⟨0, _⟩, s => { p with cont := s }
  | ⟨1, _⟩, s => { p with lum := s }
  | ⟨2, _⟩, s => { p with hue := s }
  | ⟨3, _⟩, s => { p with sat := s }

/-- struct adjust_data. -/
structure AdjustData where
  params : AdjustParams
  num_available_modes : Nat
deriving DecidableEq

/-- The zero-initialized (calloc) adjust_data. -/
def AdjustData.initial : AdjustData :=
  ⟨⟨⟨0, ⟨0, 0⟩, false⟩, ⟨0, ⟨0, 0⟩, false⟩, ⟨0, ⟨0, 0⟩, false⟩,
    ⟨0, ⟨0, 0⟩, false⟩⟩, 0⟩

/-- adapt_adjust_sigma: contrast is remapped into [0, 0.35], saturation into
[0, 1], every other control passes through unchanged. -/
def adapt_adjust_sigma (psz_var : String) (sigma : ℚ) (p_range : Range) : ℚ :=
  if psz_var = "contrast" then
    GET_DRV_SIGMA sigma p_range ⟨0, 7/20⟩
  else if psz_var = "saturation" then
    GET_DRV_SIGMA sigma p_range ⟨0, 1⟩
  else
    sigma

/-! ## OpenAdjust_InitFilterParams: capability scan and parameter buffer -/

/-- One entry of the VAProcFilterCapColorBalance array returned by the
color-balance capability query (external libva type). -/
structure VAProcFilterCapColorBalance where
  type : VAProcColorBalanceType
  range : Range
deriving DecidableEq

/-- Body of the inner match in the capability scan: slot i receives the
driver range of the matching cap, is flagged available, the available-mode
count is incremented, and the driver value is initialized from the inherited
normalized value through clip, adaptation and the affine map. -/
def adjustScanUpdate (acc : AdjustData) (i : Fin NUM_ADJUST_MODES)
    (c : VAProcFilterCapColorBalance) (inherited : Fin NUM_ADJUST_MODES → ℚ) :
    AdjustData :=
  let vlc_sigma :=
    VLC_CLIP (inherited i) (vlc_adjust_sigma_ranges i).min_value
      (vlc_adjust_sigma_ranges i).max_value
  let vlc_sigma :=
    adapt_adjust_sigma (adjust_params_names i) vlc_sigma
      (vlc_adjust_sigma_ranges i)
  let drv_range := c.range
  let drv_sigma :=
    GET_DRV_SIGMA vlc_sigma (vlc_adjust_sigma_ranges i) drv_range
  { params := acc.params.setSigma i ⟨drv_sigma, drv_range, true⟩,
    num_available_modes := acc.num_available_modes + 1 }

/-- The scan loop of OpenAdjust_InitFilterParams.  The C outer loop iterates
i over [0, num_caps) and reads the four-entry tables at index i; the inner
loop searches caps[0..num_caps) for the first entry whose type equals
va_adjust_modes[i] and breaks on a match.  A table read at an index not
below NUM_ADJUST_MODES is out of bounds in C; the embedding makes that
branch explicit by returning none. -/
def adjustScanLoop (report : List VAProcFilterCapColorBalance)
    (inherited : Fin NUM_ADJUST_MODES → ℚ) :
    List Nat → AdjustData → Option AdjustData
  | [], acc => some acc
  | i :: rest, acc =>
    if h : i < NUM_ADJUST_MODES then
      let fi : Fin NUM_ADJUST_MODES := ⟨i, h⟩
      match report.find? (fun c => decide (c.type = va_adjust_modes fi)) with
      | some c => adjustScanLoop report inherited rest
          (adjustScanUpdate acc fi c inherited)
      | none => adjustScanLoop report inherited rest acc
    else
      none

/-- The channel-availability scan of OpenAdjust_InitFilterParams, run over a
capability report of num_caps = report.length entries, starting from the
zero-initialized adjust_data.  The inherited argument supplies the
externally configured normalized starting values (var_InheritFloat). -/
def OpenAdjust_scan (report : List VAProcFilterCapColorBalance)
    (inherited : Fin NUM_ADJUST_MODES → ℚ) : Option AdjustData :=
  adjustScanLoop report inherited (List.range report.length) AdjustData.initial

/-- One VAProcFilterParameterBufferColorBalance entry as written by this
module: filter type, color-balance attribute, value. -/
structure ColorBalanceEntry where
  type : VAProcFilterType
  attrib : VAProcColorBalanceType
  value : ℚ
deriving DecidableEq

/-- The buffer-sizing loop at the end of OpenAdjust_InitFilterParams:
for j over the four modes in order, each available slot appends one entry
with type VAProcFilterColorBalance and attrib va_adjust_modes[j]
(values are zero from calloc). -/
def adjustFillLoop (p : AdjustParams) :
    List (Fin NUM_ADJUST_MODES) → List ColorBalanceEntry
  | [] => []
  | j :: rest =>
    if (p.sigma j).is_available then
      ⟨.colorBalance, va_adjust_modes j, 0⟩ :: adjustFillLoop p rest
    else
      adjustFillLoop p rest

/-- The initial parameter buffer built by OpenAdjust_InitFilterParams. -/
def OpenAdjust_FillParams (p : AdjustParams) : List ColorBalanceEntry :=
  adjustFillLoop p (List.finRange NUM_ADJUST_MODES)

/-- The per-frame value-update loop of Adjust_UpdateVAFilterParams: for j over
the four modes in order, each available slot writes one value (an atomic
load of its stored driver value) at the next buffer position. -/
def adjustUpdateLoop (p : AdjustParams) :
    List (Fin NUM_ADJUST_MODES) → List ℚ
  | [] => []
  | j :: rest =>
    if (p.sigma j).is_available then
      (p.sigma j).drv_value :: adjustUpdateLoop p rest
    else
      adjustUpdateLoop p rest

/-- The values written into the driver parameter buffer by
Adjust_UpdateVAFilterParams, in write order. -/
def Adjust_UpdateVAFilterParams (p : AdjustParams) : List ℚ :=
  adjustUpdateLoop p (List.finRange NUM_ADJUST_MODES)

/-- The modes flagged available, in the fixed table order. -/
def availableModes (p : AdjustParams) : List (Fin NUM_ADJUST_MODES) :=
  (List.finRange NUM_ADJUST_MODES).filter (fun j => (p.sigma j).is_available)

/-! ## Basic filter structures -/

/-- struct basic_filter_data (the sigma part relevant to the callback). -/
structure BasicFilterData where
  drv_value : ℚ
  drv_range : Range
  vlc_range : Range
  psz_name : String
deriving DecidableEq

/-! ## FilterCallback (runtime parameter channel) -/

/-- The p_data argument of FilterCallback, as registered by the session that
owns the callback: an adjust session passes a struct adjust_data, a basic
(denoise/sharpen) session passes a struct basic_filter_data.  The C code
casts the untyped pointer according to the matched name. -/
inductive CbData where
  | adjust (a : AdjustData)
  | basic (b : BasicFilterData)
deriving DecidableEq

/-- Result of FilterCallback: a return code together with the (possibly
updated) callback data, or a marker for the paths on which the C code would
reinterpret the callback data through the wrong structure type (a name of
one family paired with data registered by the other family; such a call is
never made by the module, which registers each callback only for its own
variable names). -/
inductive CbResult where
  | ret (code : Int) (d : CbData)
  | typeConfusion
deriving DecidableEq

/-- FilterCallback: resolve psz_var against the four adjust channel names,
then against the two basic sigma names; fail (VLC_EGENERIC) when nothing
matches or when the matched adjust channel is unavailable; otherwise clip
the new value to the control's vlc range, apply adapt_adjust_sigma for
adjust controls, map through GET_DRV_SIGMA into the stored driver range and
atomically store the result. -/
def FilterCallback (psz_var : String) (newval : ℚ) (p_data : CbData) :
    CbResult :=
  match (List.finRange NUM_ADJUST_MODES).find?
      (fun i => psz_var == adjust_params_names i) with
  | some i =>
    match p_data with
    | .adjust a =>
      if !(a.params.sigma i).is_available then
        .ret VLC_EGENERIC p_data
      else
        let p_vlc_range := vlc_adjust_sigma_ranges i
        let p_drv_range := (a.params.sigma i).drv_range
        let vlc_sigma :=
          VLC_CLIP newval p_vlc_range.min_value p_vlc_range.max_value
        let vlc_sigma := adapt_adjust_sigma psz_var vlc_sigma p_vlc_range
        let drv_sigma := GET_DRV_SIGMA vlc_sigma p_vlc_range p_drv_range
        .ret VLC_SUCCESS (.adjust ⟨a.params.setSigma i
          { a.params.sigma i with drv_value := drv_sigma },
          a.num_available_modes⟩)
    | .basic _ => .typeConfusion
  | none =>
    if psz_var == "denoise-sigma" || psz_var == "sharpen-sigma" then
      match p_data with
      | .basic b =>
        let vlc_sigma :=
          VLC_CLIP newval b.vlc_range.min_value b.vlc_range.max_value
        let drv_sigma := GET_DRV_SIGMA vlc_sigma b.vlc_range b.drv_range
        .ret VLC_SUCCESS (.basic { b with drv_value := drv_sigma })
      | .adjust _ => .typeConfusion
    else
      .ret VLC_EGENERIC p_data

/-! ## Open (session manager) -/

/-- The resources Open can acquire, in acquisition order: the filter_sys
allocation, the held vaapi instance, the output picture pool with its
backing surfaces (dest_pics), the configuration, the execution context, the
host memory blob returned by the parameter-initialization callback, and the
filter parameter buffer. -/
inductive Res where
  | sysMem
  | inst
  | destPics
  | conf
  | ctx
  | vaParamsMem
  | buf
deriving DecidableEq

/-- Outcome oracle for the fallible steps of Open, in program order. -/
structure OpenOracle where
  fmtOk : Bool
  callocOk : Bool
  instOk : Bool
  poolOk : Bool
  confOk : Bool
  ctxOk : Bool
  filterSupported : Bool
  initParamsOk : Bool
  bufOk : Bool
  queryOk : Bool
  fastCap : Bool
  hasUseCaps : Bool
  useCapsOk : Bool
deriving DecidableEq

/-- Observable outcome of Open: return code, every resource that was
acquired during the call, every resource that was released before
returning, and whether the fast-pipeline flag was set. -/
structure OpenResult where
  ret : Int
  acquired : List Res
  released : List Res
  pipelineFast : Bool
deriving DecidableEq

/-- The error label of Open: it destroys the parameter buffer, the context
and the configuration when their handles are valid, releases the instance
when held, and frees filter_sys; it does not touch dest_pics.  preReleased
holds what the straight-line code already released before jumping here
(the parameter blob freed right after vlc_vaapi_CreateBuffer). -/
def Open_error (acq preReleased : List Res)
    (bufValid ctxValid confValid instHeld : Bool) : OpenResult :=
  { ret := VLC_EGENERIC,
    acquired := acq,
    released := preReleased
      ++ (if bufValid then [Res.buf] else [])
      ++ (if ctxValid then [Res.ctx] else [])
      ++ (if confValid then [Res.conf] else [])
      ++ (if instHeld then [Res.inst] else [])
      ++ [Res.sysMem],
    pipelineFast := false }

/-- Open: the input/output format compatibility check runs before any
allocation; then filter_sys is calloc-ed, the instance held, the output
pool allocated, the configuration and context created, the filter-support
check, the parameter-initialization callback, the parameter buffer
creation (after which the callback's blob is freed unconditionally), the
pipeline capability query, and the optional capability-consumption
callback; any failure jumps to the error label. -/
def Open (o : OpenOracle) : OpenResult :=
  if !o.fmtOk then
    ⟨VLC_EGENERIC, [], [], false⟩
  else if !o.callocOk then
    ⟨VLC_ENOMEM, [], [], false⟩
  else if !o.instOk then
    Open_error [Res.sysMem] [] false false false false
  else if !o.poolOk then
    Open_error [Res.sysMem, Res.inst] [] false false false true
  else if !o.confOk then
    Open_error [Res.sysMem, Res.inst, Res.destPics] [] false false false true
  else if !o.ctxOk then
    Open_error [Res.sysMem, Res.inst, Res.destPics, Res.conf] []
      false false true true
  else if !o.filterSupported then
    Open_error [Res.sysMem, Res.inst, Res.destPics, Res.conf, Res.ctx] []
      false true true true
  else if !o.initParamsOk then
    Open_error [Res.sysMem, Res.inst, Res.destPics, Res.conf, Res.ctx] []
      false true true true
  else if !o.bufOk then
    Open_error
      [Res.sysMem, Res.inst, Res.destPics, Res.conf, Res.ctx, Res.vaParamsMem]
      [Res.vaParamsMem] false true true true
  else if !o.queryOk then
    Open_error
      [Res.sysMem, Res.inst, Res.destPics, Res.conf, Res.ctx, Res.vaParamsMem,
        Res.buf]
      [Res.vaParamsMem] true true true true
  else if o.hasUseCaps && !o.useCapsOk then
    Open_error
      [Res.sysMem, Res.inst, Res.destPics, Res.conf, Res.ctx, Res.vaParamsMem,
        Res.buf]
      [Res.vaParamsMem] true true true true
  else
    { ret := VLC_SUCCESS,
      acquired := [Res.sysMem, Res.inst, Res.destPics, Res.conf, Res.ctx,
        Res.vaParamsMem, Res.buf],
      released := [Res.vaParamsMem],
      pipelineFast := o.fastCap }

/-! ## Pictures -/

/-- A picture: device surface identifier plus the metadata fields this
module reads or writes. -/
structure Pic where
  surface : Nat
  b_top_field_first : Bool
  b_progressive : Bool
deriving DecidableEq

/-- The all-zero picture slot (calloc-ed history entries). -/
def nullPic : Pic := ⟨0, false, false⟩

/-- picture_CopyProperties: the destination keeps its own surface and takes
the source's metadata. -/
def picture_CopyProperties (dest src : Pic) : Pic :=
  { dest with
    b_top_field_first := src.b_top_field_first,
    b_progressive := src.b_progressive }

/-! ## Filter (generic per-frame executor) -/

/-- Outcome oracle for one call to the generic Filter routine: the pool wait
result, the source frame, the success of each driver call in program
order, the identifier returned by the pipeline-buffer creation
(VA_INVALID_ID on failure), and the indeterminate value the C variable
pipeline_buf holds when the error label is reached by a goto placed before
that variable's initialization (the C declaration, with its initializer
VA_INVALID_ID, sits after the first three failure gotos). -/
structure FilterOracle where
  poolPic : Option Pic
  srcPic : Pic
  mapParamsOk : Bool
  unmapParamsOk : Bool
  beginOk : Bool
  pipelineBufId : Nat
  mapPipelineOk : Bool
  unmapPipelineOk : Bool
  renderOk : Bool
  endOk : Bool
  indet : Nat
deriving DecidableEq

/-- Observable outcome of Filter: the returned frame (none on any failure),
the pictures released back to the pool, and the transient buffers created
and destroyed. -/
structure FilterResult where
  output : Option Pic
  releasedPics : List Pic
  createdBufs : List Nat
  destroyedBufs : List Nat
deriving DecidableEq

/-- The error label of Filter: destroy pipeline_buf when it differs from
VA_INVALID_ID, release the destination picture, return NULL. -/
def Filter_error (pipelineVal : Nat) (dest : Pic) (created : List Nat) :
    FilterResult :=
  ⟨none, [dest], created,
    if pipelineVal ≠ VA_INVALID_ID then [pipelineVal] else []⟩

/-- Filter: wait on the output pool (returning NULL with nothing acquired
when it is exhausted), copy the source's properties onto the destination,
map/update/unmap the parameter buffer, begin the picture, create and fill
the transient pipeline buffer, render and end the picture; any driver
failure jumps to the error label.  The per-filter callbacks are pure with
respect to the resources tracked here and are elided. -/
def Filter (o : FilterOracle) : FilterResult :=
  match o.poolPic with
  | none => ⟨none, [], [], []⟩
  | some destRaw =>
    let dest := picture_CopyProperties destRaw o.srcPic
    if !o.mapParamsOk then Filter_error o.indet dest []
    else if !o.unmapParamsOk then Filter_error o.indet dest []
    else if !o.beginOk then Filter_error o.indet dest []
    else
      let pipeline_buf := o.pipelineBufId
      if pipeline_buf = VA_INVALID_ID then Filter_error pipeline_buf dest []
      else if !o.mapPipelineOk then Filter_error pipeline_buf dest [pipeline_buf]
      else if !o.unmapPipelineOk then
        Filter_error pipeline_buf dest [pipeline_buf]
      else if !o.renderOk then Filter_error pipeline_buf dest [pipeline_buf]
      else if !o.endOk then Filter_error pipeline_buf dest [pipeline_buf]
      else ⟨some dest, [], [pipeline_buf], []⟩

/-- All driver steps of Filter after the pool wait succeeded. -/
def filterStepsOk (o : FilterOracle) : Bool :=
  o.mapParamsOk && o.unmapParamsOk && o.beginOk &&
    (o.pipelineBufId != VA_INVALID_ID) && o.mapPipelineOk &&
    o.unmapPipelineOk && o.renderOk && o.endOk

/-! ## Deinterlace -/

/-- VA_DEINTERLACING_BOTTOM_FIELD_FIRST from the external libva header. -/
def VA_DEINTERLACING_BOTTOM_FIELD_FIRST : Nat := 1

/-- struct deint_data: the history window (pp_pics[0..num_pics) as a list),
its capacity history.sz, and the configured forward/backward reference
counts; pp_cur_pic points at offset forward_refs.sz into the window. -/
structure DeintData where
  history : List Pic
  history_sz : Nat
  fwd_sz : Nat
  bwd_sz : Nat
deriving DecidableEq

/-- The state set up by OpenDeinterlace_InitHistory: empty window of
capacity bwd + 1 + fwd. -/
def deintInit (bwd fwd : Nat) : DeintData :=
  ⟨[], bwd + 1 + fwd, fwd, bwd⟩

/-- Deinterlace_UpdateHistory: when the window is full, release pp_pics[0]
and shift the window down by one (memmove), then admit src at the end; the
function returns *pp_cur_pic read after the insertion (a calloc-ed NULL
slot while the window has fewer than fwd_sz + 1 frames).  Result: updated
data, the released pictures, and the current picture. -/
def Deinterlace_UpdateHistory (d : DeintData) (src : Pic) :
    DeintData × List Pic × Pic :=
  if d.history.length = d.history_sz then
    let pics := d.history.tail ++ [src]
    ({ d with history := pics }, [d.history.headD nullPic],
      pics.getD d.fwd_sz nullPic)
  else
    let pics := d.history ++ [src]
    ({ d with history := pics }, [], pics.getD d.fwd_sz nullPic)

/-- Deinterlace_UpdateReferenceFrames: backward_refs[i] receives the surface
of history slot fwd_sz + 1 + i for i below bwd_sz, forward_refs[i] the
surface of history slot fwd_sz - 1 - i for i below fwd_sz.  Result:
(backward array, forward array). -/
def Deinterlace_UpdateReferenceFrames (d : DeintData) :
    List Nat × List Nat :=
  ((List.range d.bwd_sz).map
      (fun i => (d.history.getD (d.fwd_sz + 1 + i) nullPic).surface),
    (List.range d.fwd_sz).map
      (fun i => (d.history.getD (d.fwd_sz - 1 - i) nullPic).surface))

/-- The filter_flags field set by Deinterlace_UpdatePipelineParams from the
current frame (pp_cur_pic[0]): zero when it is top-field-first, otherwise
VA_DEINTERLACING_BOTTOM_FIELD_FIRST. -/
def Deinterlace_filterFlags (d : DeintData) : Nat :=
  if (d.history.getD d.fwd_sz nullPic).b_top_field_first then 0
  else VA_DEINTERLACING_BOTTOM_FIELD_FIRST

/-- The observable product of one successful Deinterlace rendering: the
current frame handed to the pipeline as source, the returned destination
frame (properties copied from the current frame, then forced progressive;
its device surface comes from the output pool and is not tracked), and the
pipeline parameters attached by the two callbacks. -/
structure DeintOutput where
  cur : Pic
  dest : Pic
  forward_refs : List Nat
  backward_refs : List Nat
  filter_flags : Nat
deriving DecidableEq

/-- One step of Deinterlace. -/
structure DeintStep where
  data : DeintData
  released : List Pic
  output : Option DeintOutput
deriving DecidableEq

/-- Deinterlace: push src into the history; while the window is not yet
full, return NULL; otherwise delegate to Filter with the reference-frame
and pipeline-parameter callbacks (filterOk abstracts the success of every
driver call inside Filter) and mark the returned frame progressive. -/
def Deinterlace (d : DeintData) (src : Pic) (filterOk : Bool) : DeintStep :=
  let r := Deinterlace_UpdateHistory d src
  { data := r.1,
    released := r.2.1,
    output :=
      if r.1.history.length < r.1.history_sz then none
      else if filterOk then
        some ⟨r.2.2, { r.2.2 with b_progressive := true },
          (Deinterlace_UpdateReferenceFrames r.1).2,
          (Deinterlace_UpdateReferenceFrames r.1).1,
          Deinterlace_filterFlags r.1⟩
      else none }

/-- A run of Deinterlace over a list of submitted frames (driver calls
succeeding), collecting each step's released pictures and output. -/
def deintRun : DeintData → List Pic →
    DeintData × List (List Pic × Option DeintOutput)
  | d, [] => (d, [])
  | d, s :: rest =>
    let step := Deinterlace d s true
    let r := deintRun step.data rest
    (r.1, (step.released, step.output) :: r.2)

/-- The perceptual compression applied by the adjust control path, described
per channel index: contrast (index 0) is remapped into [0, 0.35],
saturation (index 3) into [0, 1], brightness and hue pass through. -/
def adjustCompression : Fin NUM_ADJUST_MODES → ℚ → ℚ
  | ⟨0, _⟩, x => GET_DRV_SIGMA x (vlc_adjust_sigma_ranges ⟨0, by decide⟩) ⟨0, 7/20⟩
  | ⟨3, _⟩, x => GET_DRV_SIGMA x (vlc_adjust_sigma_ranges ⟨3, by decide⟩) ⟨0, 1⟩
  | _, x => x

/-! ## Theorems -/

theorem finRange_four : List.finRange NUM_ADJUST_MODES = [0, 1, 2, 3] := by
  decide

theorem adjustUpdateLoop_eq (p : AdjustParams) (l : List (Fin NUM_ADJUST_MODES)) :
    adjustUpdateLoop p l =
      (l.filter (fun j => (p.sigma j).is_available)).map
        (fun j => (p.sigma j).drv_value) := by
  induction l with
  | nil => rfl
  | cons j rest ih =>
    by_cases h : (p.sigma j).is_available <;>
      simp [adjustUpdateLoop, h, ih, List.filter_cons]

theorem adjustFillLoop_eq (p : AdjustParams) (l : List (Fin NUM_ADJUST_MODES)) :
    adjustFillLoop p l =
      (l.filter (fun j => (p.sigma j).is_available)).map
        (fun j => (⟨.colorBalance, va_adjust_modes j, 0⟩ : ColorBalanceEntry)) := by
  induction l with
  | nil => rfl
  | cons j rest ih =>
    by_cases h : (p.sigma j).is_available <;>
      simp [adjustFillLoop, h, ih, List.filter_cons]

/-- C6: for every reachable Adjust state, the number of entries written into
the driver parameter buffer — both the initial buffer built at open and the
values written by the per-frame update — equals the number of channels
flagged available, and the entries follow the fixed order contrast,
brightness, hue, saturation restricted to the available channels. -/
theorem C6_param_buffer_matches_available (p : AdjustParams) :
    (Adjust_UpdateVAFilterParams p).length = (availableModes p).length
    ∧ Adjust_UpdateVAFilterParams p =
        (availableModes p).map (fun j => (p.sigma j).drv_value)
    ∧ (OpenAdjust_FillParams p).length = (availableModes p).length
    ∧ OpenAdjust_FillParams p =
        (availableModes p).map
          (fun j => (⟨.colorBalance, va_adjust_modes j, 0⟩ : ColorBalanceEntry))
    ∧ (availableModes p).length =
        (List.finRange NUM_ADJUST_MODES).countP
          (fun j => (p.sigma j).is_available) := by
  refine ⟨?_, ?_, ?_, ?_, ?_⟩
  · simp [Adjust_UpdateVAFilterParams, adjustUpdateLoop_eq, availableModes]
  · simp [Adjust_UpdateVAFilterParams, adjustUpdateLoop_eq, availableModes]
  · simp [OpenAdjust_FillParams, adjustFillLoop_eq, availableModes]
  · simp [OpenAdjust_FillParams, adjustFillLoop_eq, availableModes]
  · simp [availableModes, List.countP_eq_length_filter]

/-- C8: over the exact rationals, the shared affine mapping GET_DRV_SIGMA is
strictly monotone in its input whenever both ranges are non-degenerate, and
composing it with the inverse affine mapping (driver range back to vlc
range) recovers the original value exactly. -/
theorem C8_affine_monotone_inverse (x y : ℚ) (vr dr : Range)
    (hv : vr.min_value < vr.max_value) (hd : dr.min_value < dr.max_value) :
    (x < y → GET_DRV_SIGMA x vr dr < GET_DRV_SIGMA y vr dr)
    ∧ GET_DRV_SIGMA (GET_DRV_SIGMA x vr dr) dr vr = x := by
  have hv0 : (0 : ℚ) < vr.max_value - vr.min_value := by linarith
  have hd0 : (0 : ℚ) < dr.max_value - dr.min_value := by linarith
  constructor
  · intro hxy
    unfold GET_DRV_SIGMA
    have hmul : (x - vr.min_value) * (dr.max_value - dr.min_value)
        < (y - vr.min_value) * (dr.max_value - dr.min_value) := by
      apply mul_lt_mul_of_pos_right _ hd0
      linarith
    have := div_lt_div_of_pos_right hmul hv0
    linarith
  · unfold GET_DRV_SIGMA
    have hv0' : vr.max_value - vr.min_value ≠ 0 := ne_of_gt hv0
    have hd0' : dr.max_value - dr.min_value ≠ 0 := ne_of_gt hd0
    field_simp
    ring

/-- Witness for C8 at x = 1, y = 2, vlc range [0, 2], driver range [0, 100]. -/
theorem C8_affine_monotone_inverse_witness :
    ((0 : ℚ) < 2 ∧ (0 : ℚ) < 100)
    ∧ ((1 : ℚ) < 2 →
        GET_DRV_SIGMA 1 ⟨0, 2⟩ ⟨0, 100⟩ < GET_DRV_SIGMA 2 ⟨0, 2⟩ ⟨0, 100⟩)
    ∧ GET_DRV_SIGMA (GET_DRV_SIGMA 1 ⟨0, 2⟩ ⟨0, 100⟩) ⟨0, 100⟩ ⟨0, 2⟩ = 1 :=
  ⟨⟨by norm_num, by norm_num⟩,
    (C8_affine_monotone_inverse 1 2 ⟨0, 2⟩ ⟨0, 100⟩ (by norm_num) (by norm_num)).1,
    (C8_affine_monotone_inverse 1 2 ⟨0, 2⟩ ⟨0, 100⟩ (by norm_num) (by norm_num)).2⟩

/-- C5: evaluation of the capability scan at a failing input.  The hardware
reports a single capability entry of type hue (num_caps = 1); the report
contains the hue channel's color-balance type, yet the scan leaves every
channel — hue included — flagged unavailable, because its outer loop runs
only over [0, num_caps) = {0} and therefore only ever tests the contrast
channel.  This contradicts the claimed per-channel availability rule. -/
theorem C5_scan_misses_reported_channel :
    (OpenAdjust_scan [⟨.hue, ⟨0, 100⟩⟩] (fun _ => 1)).map
        (fun d => (d.params.hue.is_available, d.params.cont.is_available,
          d.params.lum.is_available, d.params.sat.is_available,
          d.num_available_modes))
      = some (false, false, false, false, 0)
    ∧ ([(⟨.hue, ⟨0, 100⟩⟩ : VAProcFilterCapColorBalance)].any
        (fun c => c.type == .hue)) = true := by
  constructor
  · rfl
  · rfl

/-- C10: evaluation of the capability scan at a failing input.  With a
report of five capability entries (num_caps = 5, legal since the libva
color-balance enumeration has eight values) the scan's outer loop reaches
index 4 and reads the four-entry tables out of bounds: the embedding's
out-of-bounds branch is reached, contradicting the claimed bound
check. -/
theorem C10_scan_out_of_bounds_at_five_caps :
    OpenAdjust_scan
        [⟨.hue, ⟨0, 100⟩⟩, ⟨.saturation, ⟨0, 100⟩⟩, ⟨.brightness, ⟨0, 100⟩⟩,
          ⟨.contrast, ⟨0, 100⟩⟩, ⟨.autoSaturation, ⟨0, 100⟩⟩]
        (fun _ => 1) = none
    ∧ ([⟨.hue, ⟨0, 100⟩⟩, ⟨.saturation, ⟨0, 100⟩⟩, ⟨.brightness, ⟨0, 100⟩⟩,
          ⟨.contrast, ⟨0, 100⟩⟩,
          (⟨.autoSaturation, ⟨0, 100⟩⟩ : VAProcFilterCapColorBalance)].length = 5
        ∧ 5 ≤ VAProcColorBalanceCount) := by
  constructor
  · rfl
  · constructor
    · rfl
    · decide

/-- C3: evaluation of Open at a failing input.  When the configuration
creation fails after the output pool was successfully allocated, the error
path destroys nothing but the (still invalid) buffer/context/configuration
handles, releases the instance and frees filter_sys — the output pool
dest_pics is left acquired, so the claimed leak-freedom fails.  The first
conjunct also records that the format precondition is checked before any
acquisition. -/
theorem C3_open_error_path_leaks_pool :
    Open ⟨false, true, true, true, true, true, true, true, true, true, false,
        false, true⟩ = ⟨VLC_EGENERIC, [], [], false⟩
    ∧ (Open ⟨true, true, true, true, false, true, true, true, true, true,
        false, false, true⟩).ret = VLC_EGENERIC
    ∧ Res.destPics ∈ (Open ⟨true, true, true, true, false, true, true, true,
        true, true, false, false, true⟩).acquired
    ∧ Res.destPics ∉ (Open ⟨true, true, true, true, false, true, true, true,
        true, true, false, false, true⟩).released := by
  refine ⟨rfl, rfl, by decide, by decide⟩

theorem find_contrast_name :
    (List.finRange NUM_ADJUST_MODES).find?
      (fun i => "contrast" == adjust_params_names i) = some ⟨0, by decide⟩ := by
  rfl

/-- C9, counterexample: with the contrast channel available and a driver
range of [0, 100], setting the contrast control to normalized input 1
stores 35/4 = 8.75 — the value of the compression-then-affine chain — and
not the claimed 0.35/2 * (100 - 0) + 0 = 17.5: the claim's closed-form
expression disagrees with the chain it names, because the affine step
divides by the width of the vlc range [0, 2] once more. -/
theorem C9_counterexample_contrast_value :
    FilterCallback "contrast" 1
        (.adjust ⟨⟨⟨0, ⟨0, 100⟩, true⟩, ⟨0, ⟨0, 0⟩, false⟩, ⟨0, ⟨0, 0⟩, false⟩,
          ⟨0, ⟨0, 0⟩, false⟩⟩, 1⟩)
      = .ret VLC_SUCCESS
          (.adjust ⟨⟨⟨35/4, ⟨0, 100⟩, true⟩, ⟨0, ⟨0, 0⟩, false⟩,
            ⟨0, ⟨0, 0⟩, false⟩, ⟨0, ⟨0, 0⟩, false⟩⟩, 1⟩)
    ∧ (35 : ℚ)/4 ≠ (7/20)/2 * (100 - 0) + 0 := by
  constructor
  · simp only [FilterCallback, find_contrast_name]
    norm_num [VLC_CLIP, adapt_adjust_sigma, GET_DRV_SIGMA,
      vlc_adjust_sigma_ranges, AdjustParams.sigma, AdjustParams.setSigma]
  · norm_num

/-- C9, amended: in an Adjust session where the contrast channel is
available with driver range [0, 100], setting the contrast control to
normalized input 1.0 (vlc range [0, 2], compressed into [0, 0.35]) stores
the driver value 0.35/2 * (100 - 0) / (2 - 0) + 0 = 8.75, the exact value
of the compression-then-affine chain; and when exactly contrast and hue
are available the parameter buffer contains exactly two entries, tagged
contrast and hue. -/
theorem C9_amended_contrast_chain (p : AdjustParams) (n : Nat)
    (hca : p.cont.is_available = true)
    (hla : p.lum.is_available = false)
    (hha : p.hue.is_available = true)
    (hsa : p.sat.is_available = false)
    (hr : p.cont.drv_range = ⟨0, 100⟩) :
    FilterCallback "contrast" 1 (.adjust ⟨p, n⟩)
      = .ret VLC_SUCCESS
          (.adjust ⟨{ p with cont := { p.cont with drv_value := 35/4 } }, n⟩)
    ∧ (35 : ℚ)/4 = (7/20)/2 * (100 - 0) / (2 - 0) + 0
    ∧ OpenAdjust_FillParams p =
        [⟨.colorBalance, .contrast, 0⟩, ⟨.colorBalance, .hue, 0⟩]
    ∧ (OpenAdjust_FillParams p).length = 2 := by
  refine ⟨?_, by norm_num, ?_, ?_⟩
  · simp only [FilterCallback, find_contrast_name]
    have hsig : ∀ h : 0 < NUM_ADJUST_MODES, p.sigma ⟨0, h⟩ = p.cont :=
      fun _ => rfl
    simp only [hsig, hca, Bool.not_true, Bool.false_eq_true, if_false,
      Bool.true_eq_false]
    rw [hr]
    have : GET_DRV_SIGMA
        (adapt_adjust_sigma "contrast"
          (VLC_CLIP 1 (vlc_adjust_sigma_ranges ⟨0, by decide⟩).min_value
            (vlc_adjust_sigma_ranges ⟨0, by decide⟩).max_value)
          (vlc_adjust_sigma_ranges ⟨0, by decide⟩))
        (vlc_adjust_sigma_ranges ⟨0, by decide⟩) ⟨0, 100⟩ = 35/4 := by
      norm_num [GET_DRV_SIGMA, VLC_CLIP, adapt_adjust_sigma,
        vlc_adjust_sigma_ranges]
    simp only [this]
    rfl
  · simp only [OpenAdjust_FillParams, finRange_four, adjustFillLoop]
    have h0 : ∀ h : (0 : Nat) < NUM_ADJUST_MODES, p.sigma ⟨0, h⟩ = p.cont :=
      fun _ => rfl
    have h1 : ∀ h : (1 : Nat) < NUM_ADJUST_MODES, p.sigma ⟨1, h⟩ = p.lum :=
      fun _ => rfl
    have h2 : ∀ h : (2 : Nat) < NUM_ADJUST_MODES, p.sigma ⟨2, h⟩ = p.hue :=
      fun _ => rfl
    have h3 : ∀ h : (3 : Nat) < NUM_ADJUST_MODES, p.sigma ⟨3, h⟩ = p.sat :=
      fun _ => rfl
    have g0 : p.sigma 0 = p.cont := rfl
    have g1 : p.sigma 1 = p.lum := rfl
    have g2 : p.sigma 2 = p.hue := rfl
    have g3 : p.sigma 3 = p.sat := rfl
    simp [h0, h1, h2, h3, g0, g1, g2, g3, hca, hla, hha, hsa,
      va_adjust_modes]
  · simp only [OpenAdjust_FillParams, finRange_four, adjustFillLoop]
    have h0 : ∀ h : (0 : Nat) < NUM_ADJUST_MODES, p.sigma ⟨0, h⟩ = p.cont :=
      fun _ => rfl
    have h1 : ∀ h : (1 : Nat) < NUM_ADJUST_MODES, p.sigma ⟨1, h⟩ = p.lum :=
      fun _ => rfl
    have h2 : ∀ h : (2 : Nat) < NUM_ADJUST_MODES, p.sigma ⟨2, h⟩ = p.hue :=
      fun _ => rfl
    have h3 : ∀ h : (3 : Nat) < NUM_ADJUST_MODES, p.sigma ⟨3, h⟩ = p.sat :=
      fun _ => rfl
    have g0 : p.sigma 0 = p.cont := rfl
    have g1 : p.sigma 1 = p.lum := rfl
    have g2 : p.sigma 2 = p.hue := rfl
    have g3 : p.sigma 3 = p.sat := rfl
    simp [h0, h1, h2, h3, g0, g1, g2, g3, hca, hla, hha, hsa,
      va_adjust_modes]

/-- Witness for the amended C9 at a concrete Adjust state with exactly
contrast and hue available. -/
theorem C9_amended_contrast_chain_witness :
    FilterCallback "contrast" 1
        (.adjust ⟨⟨⟨0, ⟨0, 100⟩, true⟩, ⟨0, ⟨0, 0⟩, false⟩,
          ⟨0, ⟨-180, 180⟩, true⟩, ⟨0, ⟨0, 0⟩, false⟩⟩, 2⟩)
      = .ret VLC_SUCCESS
          (.adjust ⟨⟨⟨35/4, ⟨0, 100⟩, true⟩, ⟨0, ⟨0, 0⟩, false⟩,
            ⟨0, ⟨-180, 180⟩, true⟩, ⟨0, ⟨0, 0⟩, false⟩⟩, 2⟩)
    ∧ OpenAdjust_FillParams
        ⟨⟨0, ⟨0, 100⟩, true⟩, ⟨0, ⟨0, 0⟩, false⟩, ⟨0, ⟨-180, 180⟩, true⟩,
          ⟨0, ⟨0, 0⟩, false⟩⟩
      = [⟨.colorBalance, .contrast, 0⟩, ⟨.colorBalance, .hue, 0⟩] :=
  ⟨(C9_amended_contrast_chain
      ⟨⟨0, ⟨0, 100⟩, true⟩, ⟨0, ⟨0, 0⟩, false⟩, ⟨0, ⟨-180, 180⟩, true⟩,
        ⟨0, ⟨0, 0⟩, false⟩⟩ 2 rfl rfl rfl rfl rfl).1,
    (C9_amended_contrast_chain
      ⟨⟨0, ⟨0, 100⟩, true⟩, ⟨0, ⟨0, 0⟩, false⟩, ⟨0, ⟨-180, 180⟩, true⟩,
        ⟨0, ⟨0, 0⟩, false⟩⟩ 2 rfl rfl rfl rfl rfl).2.2.1⟩

/-- C4: per-frame execution is all-or-nothing.  When the output pool is
exhausted, Filter returns no output and touches no other resource; when any
step after pool acquisition fails, the acquired destination picture is
released and every created transient pipeline buffer is destroyed, with no
output; and an output is returned only when every step succeeded, in which
case nothing was released or destroyed. -/
theorem C4_filter_all_or_nothing (o : FilterOracle) :
    (o.poolPic = none → Filter o = ⟨none, [], [], []⟩)
    ∧ (∀ dest, o.poolPic = some dest → filterStepsOk o = false →
        (Filter o).output = none
        ∧ (Filter o).releasedPics = [picture_CopyProperties dest o.srcPic]
        ∧ ∀ b ∈ (Filter o).createdBufs, b ∈ (Filter o).destroyedBufs)
    ∧ (∀ p, (Filter o).output = some p → filterStepsOk o = true
        ∧ (Filter o).releasedPics = [] ∧ (Filter o).destroyedBufs = []) := by
  obtain ⟨pool, src, m1, u1, bg, pid, m2, u2, rd, ed, ind⟩ := o
  cases pool with
  | none =>
    refine ⟨fun _ => rfl, ?_, ?_⟩
    · intro dest h
      exact absurd h (by simp)
    · intro p h
      exact absurd h (by simp [Filter])
  | some destRaw =>
    refine ⟨by simp, ?_, ?_⟩
    · intro dest hdest hfail
      obtain rfl : destRaw = dest := by simpa using hdest
      by_cases hpid : pid = VA_INVALID_ID <;>
        cases m1 <;> cases u1 <;> cases bg <;> cases m2 <;> cases u2 <;>
          cases rd <;> cases ed <;>
        simp_all [Filter, Filter_error, filterStepsOk]
    · intro p hout
      by_cases hpid : pid = VA_INVALID_ID <;>
        cases m1 <;> cases u1 <;> cases bg <;> cases m2 <;> cases u2 <;>
          cases rd <;> cases ed <;>
        simp_all [Filter, Filter_error, filterStepsOk]

/-- Witness for C4 at a concrete oracle whose render step fails. -/
theorem C4_filter_all_or_nothing_witness :
    (⟨some ⟨7, true, false⟩, ⟨9, true, true⟩, true, true, true, 42, true,
        true, false, true, 0⟩ : FilterOracle).poolPic = some ⟨7, true, false⟩
    ∧ filterStepsOk ⟨some ⟨7, true, false⟩, ⟨9, true, true⟩, true, true, true,
        42, true, true, false, true, 0⟩ = false
    ∧ (Filter ⟨some ⟨7, true, false⟩, ⟨9, true, true⟩, true, true, true, 42,
        true, true, false, true, 0⟩).output = none
    ∧ (Filter ⟨some ⟨7, true, false⟩, ⟨9, true, true⟩, true, true, true, 42,
        true, true, false, true, 0⟩).releasedPics
      = [picture_CopyProperties ⟨7, true, false⟩ ⟨9, true, true⟩]
    ∧ ∀ b ∈ (Filter ⟨some ⟨7, true, false⟩, ⟨9, true, true⟩, true, true, true,
        42, true, true, false, true, 0⟩).createdBufs,
        b ∈ (Filter ⟨some ⟨7, true, false⟩, ⟨9, true, true⟩, true, true, true,
          42, true, true, false, true, 0⟩).destroyedBufs :=
  ⟨rfl, by decide,
    ((C4_filter_all_or_nothing ⟨some ⟨7, true, false⟩, ⟨9, true, true⟩, true,
        true, true, 42, true, true, false, true, 0⟩).2.1 ⟨7, true, false⟩ rfl
      (by decide)).1,
    ((C4_filter_all_or_nothing ⟨some ⟨7, true, false⟩, ⟨9, true, true⟩, true,
        true, true, 42, true, true, false, true, 0⟩).2.1 ⟨7, true, false⟩ rfl
      (by decide)).2.1,
    ((C4_filter_all_or_nothing ⟨some ⟨7, true, false⟩, ⟨9, true, true⟩, true,
        true, true, 42, true, true, false, true, 0⟩).2.1 ⟨7, true, false⟩ rfl
      (by decide)).2.2⟩

theorem adjust_params_names_inj :
    ∀ i j : Fin NUM_ADJUST_MODES,
      adjust_params_names i = adjust_params_names j → i = j := by
  decide

theorem adjust_names_ne_basic :
    ∀ i : Fin NUM_ADJUST_MODES,
      adjust_params_names i ≠ "denoise-sigma"
      ∧ adjust_params_names i ≠ "sharpen-sigma" := by
  decide

theorem findName_some {s : String} {i : Fin NUM_ADJUST_MODES}
    (h : (List.finRange NUM_ADJUST_MODES).find?
      (fun j => s == adjust_params_names j) = some i) :
    s = adjust_params_names i := by
  have := List.find?_some h
  simpa using this

theorem findName_none {s : String}
    (h : (List.finRange NUM_ADJUST_MODES).find?
      (fun j => s == adjust_params_names j) = none) :
    ∀ i : Fin NUM_ADJUST_MODES, s ≠ adjust_params_names i := by
  intro i
  have := List.find?_eq_none.mp h i (List.mem_finRange i)
  simpa using this

theorem adapt_eq_compression (i : Fin NUM_ADJUST_MODES) (x : ℚ) :
    adapt_adjust_sigma (adjust_params_names i) x (vlc_adjust_sigma_ranges i)
      = adjustCompression i x := by
  fin_cases i <;> rfl

/-- C7: the runtime control callback fails, leaving the stored data
unchanged, exactly when the name is neither an adjust channel name nor a
basic sigma name, or when the named adjust channel is hardware-unavailable;
on success it clamps the value to the control's vlc range, applies the
compression curve for contrast and saturation only, maps through the
shared affine formula into the stored driver range, and overwrites exactly
the stored driver value with that result.  The two hypotheses record that
the callback is only ever registered with data of the family matching the
name, as the module does. -/
theorem C7_filter_callback_contract (psz_var : String) (newval : ℚ)
    (d : CbData)
    (hA : ∀ i : Fin NUM_ADJUST_MODES, psz_var = adjust_params_names i →
      ∃ a, d = CbData.adjust a)
    (hB : psz_var = "denoise-sigma" ∨ psz_var = "sharpen-sigma" →
      ∃ b, d = CbData.basic b) :
    ((∃ d0, FilterCallback psz_var newval d = .ret VLC_EGENERIC d0) ↔
      ((∀ i : Fin NUM_ADJUST_MODES, psz_var ≠ adjust_params_names i)
          ∧ psz_var ≠ "denoise-sigma" ∧ psz_var ≠ "sharpen-sigma")
        ∨ (∃ (i : Fin NUM_ADJUST_MODES) (a : AdjustData),
            psz_var = adjust_params_names i ∧ d = CbData.adjust a
            ∧ (a.params.sigma i).is_available = false))
    ∧ (∀ d0, FilterCallback psz_var newval d = .ret VLC_EGENERIC d0 → d0 = d)
    ∧ (∀ (i : Fin NUM_ADJUST_MODES) (a : AdjustData),
        psz_var = adjust_params_names i → d = CbData.adjust a →
        (a.params.sigma i).is_available = true →
        FilterCallback psz_var newval d = .ret VLC_SUCCESS (.adjust
          ⟨a.params.setSigma i
            { a.params.sigma i with drv_value :=
                (GET_DRV_SIGMA
                  (adjustCompression i
                    (VLC_CLIP newval (vlc_adjust_sigma_ranges i).min_value
                      (vlc_adjust_sigma_ranges i).max_value))
                  (vlc_adjust_sigma_ranges i) (a.params.sigma i).drv_range) },
            a.num_available_modes⟩))
    ∧ (∀ b : BasicFilterData,
        psz_var = "denoise-sigma" ∨ psz_var = "sharpen-sigma" →
        d = CbData.basic b →
        FilterCallback psz_var newval d = .ret VLC_SUCCESS (.basic
          { b with drv_value :=
              (GET_DRV_SIGMA
                (VLC_CLIP newval b.vlc_range.min_value b.vlc_range.max_value)
                b.vlc_range b.drv_range) })) := by
  cases hfind : (List.finRange NUM_ADJUST_MODES).find?
      (fun j => psz_var == adjust_params_names j) with
  | some i =>
    have hname : psz_var = adjust_params_names i := findName_some hfind
    obtain ⟨a, rfl⟩ := hA i hname
    cases hav : (a.params.sigma i).is_available with
    | false =>
      have hres : FilterCallback psz_var newval (CbData.adjust a)
          = .ret VLC_EGENERIC (CbData.adjust a) := by
        simp [FilterCallback, hfind, hav]
      refine ⟨?_, ?_, ?_, ?_⟩
      · exact ⟨fun _ => Or.inr ⟨i, a, hname, rfl, hav⟩,
          fun _ => ⟨CbData.adjust a, hres⟩⟩
      · intro d0 h0
        rw [hres] at h0
        injection h0 with h1 h2
        exact h2.symm
      · intro i' a' hname' heq hav'
        obtain rfl : i' = i :=
          adjust_params_names_inj i' i (hname' ▸ hname ▸ rfl)
        cases heq
        rw [hav] at hav'
        cases hav'
      · intro b hb heq
        cases heq
    | true =>
      have hres : FilterCallback psz_var newval (CbData.adjust a)
          = .ret VLC_SUCCESS (.adjust
            ⟨a.params.setSigma i
              { a.params.sigma i with drv_value :=
                  (GET_DRV_SIGMA
                    (adjustCompression i
                      (VLC_CLIP newval (vlc_adjust_sigma_ranges i).min_value
                        (vlc_adjust_sigma_ranges i).max_value))
                    (vlc_adjust_sigma_ranges i)
                    (a.params.sigma i).drv_range) },
              a.num_available_modes⟩) := by
        simp only [FilterCallback, hfind, hav, Bool.not_true,
          Bool.false_eq_true, if_false]
        rw [hname, adapt_eq_compression]
      refine ⟨?_, ?_, ?_, ?_⟩
      · constructor
        · intro ⟨d0, h0⟩
          rw [hres] at h0
          cases h0
        · rintro (⟨hno, -⟩ | ⟨i', a', hname', heq, hav'⟩)
          · exact absurd hname (hno i)
          · obtain rfl : i' = i :=
              adjust_params_names_inj i' i (hname' ▸ hname ▸ rfl)
            cases heq
            rw [hav] at hav'
            cases hav'
      · intro d0 h0
        rw [hres] at h0
        cases h0
      · intro i' a' hname' heq hav'
        obtain rfl : i' = i :=
          adjust_params_names_inj i' i (hname' ▸ hname ▸ rfl)
        cases heq
        exact hres
      · intro b hb heq
        cases heq
  | none =>
    have hno : ∀ i : Fin NUM_ADJUST_MODES, psz_var ≠ adjust_params_names i :=
      findName_none hfind
    by_cases hbasic : psz_var = "denoise-sigma" ∨ psz_var = "sharpen-sigma"
    · obtain ⟨b, rfl⟩ := hB hbasic
      have hcond : (psz_var == "denoise-sigma"
          || psz_var == "sharpen-sigma") = true := by
        rcases hbasic with h | h <;> simp [h]
      have hres : FilterCallback psz_var newval (CbData.basic b)
          = .ret VLC_SUCCESS (.basic
            { b with drv_value :=
                (GET_DRV_SIGMA
                  (VLC_CLIP newval b.vlc_range.min_value
                    b.vlc_range.max_value)
                  b.vlc_range b.drv_range) }) := by
        simp [FilterCallback, hfind, hcond]
      refine ⟨?_, ?_, ?_, ?_⟩
      · constructor
        · intro ⟨d0, h0⟩
          rw [hres] at h0
          cases h0
        · rintro (⟨-, hd, hs⟩ | ⟨i', a', hname', heq, -⟩)
          · rcases hbasic with h | h
            · exact absurd h hd
            · exact absurd h hs
          · cases heq
      · intro d0 h0
        rw [hres] at h0
        cases h0
      · intro i' a' hname' heq hav'
        exact absurd hname' (hno i')
      · intro b' hb heq
        cases heq
        exact hres
    · have hcond : (psz_var == "denoise-sigma"
          || psz_var == "sharpen-sigma") = false := by
        rw [not_or] at hbasic
        simp [hbasic.1, hbasic.2]
      have hres : FilterCallback psz_var newval d
          = .ret VLC_EGENERIC d := by
        simp [FilterCallback, hfind, hcond]
      refine ⟨?_, ?_, ?_, ?_⟩
      · exact ⟨fun _ => Or.inl ⟨hno, not_or.mp hbasic⟩, fun _ => ⟨d, hres⟩⟩
      · intro d0 h0
        rw [hres] at h0
        cases h0
        rfl
      · intro i' a' hname' heq hav'
        exact absurd hname' (hno i')
      · intro b' hb heq
        exact absurd hb hbasic

/-- Witness for C7: on an Adjust session whose contrast channel is
hardware-unavailable (the zero-initialized state), setting the contrast
control fails. -/
theorem C7_filter_callback_contract_witness :
    ∃ d0, FilterCallback "contrast" 1 (CbData.adjust AdjustData.initial)
      = CbResult.ret VLC_EGENERIC d0 :=
  (C7_filter_callback_contract "contrast" 1 (CbData.adjust AdjustData.initial)
      (fun _ _ => ⟨AdjustData.initial, rfl⟩)
      (fun h => absurd h (by decide))).1.mpr
    (Or.inr ⟨⟨0, by decide⟩, AdjustData.initial, rfl, rfl, rfl⟩)

theorem deint_step_data (d : DeintData) (s : Pic) (ok : Bool) :
    (Deinterlace d s ok).data = (Deinterlace_UpdateHistory d s).1 := rfl

theorem deint_step_released (d : DeintData) (s : Pic) (ok : Bool) :
    (Deinterlace d s ok).released = (Deinterlace_UpdateHistory d s).2.1 := rfl

theorem updateHistory_full {d : DeintData} (s : Pic)
    (h : d.history.length = d.history_sz) :
    (Deinterlace_UpdateHistory d s).1 = { d with history := d.history.tail ++ [s] }
    ∧ (Deinterlace_UpdateHistory d s).2.1 = [d.history.headD nullPic] := by
  constructor <;> simp [Deinterlace_UpdateHistory, h]

theorem updateHistory_notfull {d : DeintData} (s : Pic)
    (h : d.history.length ≠ d.history_sz) :
    (Deinterlace_UpdateHistory d s).1 = { d with history := d.history ++ [s] }
    ∧ (Deinterlace_UpdateHistory d s).2.1 = [] := by
  constructor <;> simp [Deinterlace_UpdateHistory, h]

theorem deint_step_history_sz (d : DeintData) (s : Pic) (ok : Bool) :
    (Deinterlace d s ok).data.history_sz = d.history_sz
    ∧ (Deinterlace d s ok).data.fwd_sz = d.fwd_sz
    ∧ (Deinterlace d s ok).data.bwd_sz = d.bwd_sz := by
  rw [deint_step_data]
  by_cases h : d.history.length = d.history_sz
  · rw [(updateHistory_full s h).1]
    exact ⟨rfl, rfl, rfl⟩
  · rw [(updateHistory_notfull s h).1]
    exact ⟨rfl, rfl, rfl⟩

theorem deintRun_cons (d : DeintData) (s : Pic) (rest : List Pic) :
    (deintRun d (s :: rest)).1 = (deintRun (Deinterlace d s true).data rest).1
    ∧ (deintRun d (s :: rest)).2 =
        ((Deinterlace d s true).released, (Deinterlace d s true).output)
          :: (deintRun (Deinterlace d s true).data rest).2 :=
  ⟨rfl, rfl⟩

theorem deintRun_sz (srcs : List Pic) :
    ∀ d : DeintData, (deintRun d srcs).1.history_sz = d.history_sz := by
  induction srcs with
  | nil => intro d; rfl
  | cons s rest ih =>
    intro d
    rw [(deintRun_cons d s rest).1, ih, (deint_step_history_sz d s true).1]

theorem deintRun_history (srcs : List Pic) :
    ∀ d : DeintData, 0 < d.history_sz → d.history.length ≤ d.history_sz →
    (deintRun d srcs).1.history =
      (d.history ++ srcs).drop
        (d.history.length + srcs.length - d.history_sz) := by
  induction srcs with
  | nil =>
    intro d h1 h2
    simp [deintRun, Nat.sub_eq_zero_of_le h2]
  | cons s rest ih =>
    intro d h1 h2
    rw [(deintRun_cons d s rest).1]
    by_cases hfull : d.history.length = d.history_sz
    · have hne : d.history ≠ [] := by
        intro h0
        rw [h0] at hfull
        simp at hfull
        omega
      obtain ⟨hd0, tl, hcons⟩ := List.exists_cons_of_ne_nil hne
      have hdata : (Deinterlace d s true).data =
          { d with history := d.history.tail ++ [s] } := by
        rw [deint_step_data, (updateHistory_full s hfull).1]
      have hlen : (d.history.tail ++ [s]).length = d.history_sz := by
        simp [hcons] at hfull ⊢
        omega
      rw [hdata, ih { d with history := d.history.tail ++ [s] } h1 (le_of_eq hlen)]
      simp only [hlen]
      have hidx1 : d.history_sz + rest.length - d.history_sz = rest.length := by
        omega
      have hidx2 : d.history.length + (s :: rest).length - d.history_sz
          = rest.length + 1 := by
        simp [hfull]
      rw [hidx1, hidx2, hcons]
      simp [List.drop_succ_cons, List.append_assoc]
    · have hdata : (Deinterlace d s true).data =
          { d with history := d.history ++ [s] } := by
        rw [deint_step_data, (updateHistory_notfull s hfull).1]
      have hlen : (d.history ++ [s]).length = d.history.length + 1 := by
        simp
      have hle : d.history.length + 1 ≤ d.history_sz := by omega
      rw [hdata, ih { d with history := d.history ++ [s] } h1 (hlen ▸ hle)]
      simp only [hlen]
      have hidx : d.history.length + 1 + rest.length - d.history_sz
          = d.history.length + (s :: rest).length - d.history_sz := by
        simp
        omega
      rw [hidx]
      simp [List.append_assoc]

theorem deintRun_length (srcs : List Pic) (d : DeintData)
    (h1 : 0 < d.history_sz) (h2 : d.history.length ≤ d.history_sz) :
    (deintRun d srcs).1.history.length
      = min (d.history.length + srcs.length) d.history_sz := by
  rw [deintRun_history srcs d h1 h2]
  simp
  omega

theorem deintRun_get (srcs : List Pic) :
    ∀ (d : DeintData) (k : Nat),
    (deintRun d srcs).2[k]? = (srcs[k]?).map (fun s =>
      ((Deinterlace (deintRun d (srcs.take k)).1 s true).released,
        (Deinterlace (deintRun d (srcs.take k)).1 s true).output)) := by
  induction srcs with
  | nil => intro d k; simp [deintRun]
  | cons s rest ih =>
    intro d k
    cases k with
    | zero =>
      rw [(deintRun_cons d s rest).2]
      simp [deintRun]
    | succ k =>
      rw [(deintRun_cons d s rest).2]
      simp only [List.getElem?_cons_succ, List.take_succ_cons]
      rw [ih (Deinterlace d s true).data k]
      rfl

theorem deint_step_filling (d : DeintData) (s : Pic) (ok : Bool)
    (h : d.history.length + 1 < d.history_sz) :
    (Deinterlace d s ok).released = [] ∧ (Deinterlace d s ok).output = none := by
  have hne : d.history.length ≠ d.history_sz := by omega
  constructor
  · rw [deint_step_released, (updateHistory_notfull s hne).2]
  · have hdata : (Deinterlace_UpdateHistory d s).1 =
        { d with history := d.history ++ [s] } := (updateHistory_notfull s hne).1
    have hlt : ((Deinterlace_UpdateHistory d s).1).history.length
        < ((Deinterlace_UpdateHistory d s).1).history_sz := by
      rw [hdata]
      simp
      omega
    simp [Deinterlace, hlt]

theorem deint_step_to_full (d : DeintData) (s : Pic)
    (h : d.history.length + 1 = d.history_sz) :
    (Deinterlace d s true).released = []
    ∧ ∃ o, (Deinterlace d s true).output = some o := by
  have hne : d.history.length ≠ d.history_sz := by omega
  constructor
  · rw [deint_step_released, (updateHistory_notfull s hne).2]
  · have hdata : (Deinterlace_UpdateHistory d s).1 =
        { d with history := d.history ++ [s] } := (updateHistory_notfull s hne).1
    have hlt : ¬ ((Deinterlace_UpdateHistory d s).1).history.length
        < ((Deinterlace_UpdateHistory d s).1).history_sz := by
      rw [hdata]
      simp
      omega
    have hout : (Deinterlace d s true).output =
        some ⟨(Deinterlace_UpdateHistory d s).2.2,
          { (Deinterlace_UpdateHistory d s).2.2 with b_progressive := true },
          (Deinterlace_UpdateReferenceFrames
            (Deinterlace_UpdateHistory d s).1).2,
          (Deinterlace_UpdateReferenceFrames
            (Deinterlace_UpdateHistory d s).1).1,
          Deinterlace_filterFlags (Deinterlace_UpdateHistory d s).1⟩ := by
      simp [Deinterlace, hlt]
    exact ⟨_, hout⟩

/-- C1: for every configured capacity sz = backward + 1 + forward, the
deinterlace history holds the last min(n, sz) submitted frames and so never
exceeds sz; each of the first sz - 1 submissions is buffered with no
release and no output; the sz-th submission is the first that produces an
output; and once the window is full every submission releases exactly the
oldest frame (index 0) and admits the new frame at the end. -/
theorem C1_deinterlace_history_window (b f : Nat) :
    (∀ srcs : List Pic,
      (deintRun (deintInit b f) srcs).1.history
          = srcs.drop (srcs.length - (b + 1 + f))
      ∧ (deintRun (deintInit b f) srcs).1.history.length
          = min srcs.length (b + 1 + f))
    ∧ (∀ (srcs : List Pic) (k : Nat), k < srcs.length → k + 1 < b + 1 + f →
        (deintRun (deintInit b f) srcs).2[k]? = some ([], none))
    ∧ (∀ srcs : List Pic, b + 1 + f ≤ srcs.length →
        ∃ o, (deintRun (deintInit b f) srcs).2[b + f]? = some ([], some o))
    ∧ (∀ (d : DeintData) (s : Pic) (ok : Bool),
        d.history_sz = b + 1 + f → d.history.length = b + 1 + f →
        (Deinterlace d s ok).released = [d.history.headD nullPic]
        ∧ (Deinterlace d s ok).data.history = d.history.tail ++ [s]) := by
  have hpos : 0 < (deintInit b f).history_sz := by
    simp [deintInit]
  have hle : (deintInit b f).history.length ≤ (deintInit b f).history_sz := by
    simp [deintInit]
  refine ⟨?_, ?_, ?_, ?_⟩
  · intro srcs
    constructor
    · have := deintRun_history srcs (deintInit b f) hpos hle
      simpa [deintInit] using this
    · have := deintRun_length srcs (deintInit b f) hpos hle
      simpa [deintInit] using this
  · intro srcs k hk hk1
    rw [deintRun_get srcs (deintInit b f) k, List.getElem?_eq_getElem hk]
    have hlen : (deintRun (deintInit b f) (srcs.take k)).1.history.length = k := by
      rw [deintRun_length (srcs.take k) (deintInit b f) hpos hle]
      simp [deintInit]
      omega
    have hsz : (deintRun (deintInit b f) (srcs.take k)).1.history_sz
        = b + 1 + f := by
      rw [deintRun_sz]
      rfl
    have hfill := deint_step_filling (deintRun (deintInit b f) (srcs.take k)).1
      (srcs[k]) true (by rw [hlen, hsz]; omega)
    simp [hfill.1, hfill.2]
  · intro srcs hsrcs
    have hk : b + f < srcs.length := by omega
    rw [deintRun_get srcs (deintInit b f) (b + f), List.getElem?_eq_getElem hk]
    have hlen : (deintRun (deintInit b f) (srcs.take (b + f))).1.history.length
        = b + f := by
      rw [deintRun_length (srcs.take (b + f)) (deintInit b f) hpos hle]
      simp [deintInit]
      omega
    have hsz : (deintRun (deintInit b f) (srcs.take (b + f))).1.history_sz
        = b + 1 + f := by
      rw [deintRun_sz]
      rfl
    have hstep := deint_step_to_full
      (deintRun (deintInit b f) (srcs.take (b + f))).1
      (srcs[b + f]) (by rw [hlen, hsz]; omega)
    obtain ⟨o, ho⟩ := hstep.2
    exact ⟨o, by simp [hstep.1, ho]⟩
  · intro d s ok hsz hfull
    have h : d.history.length = d.history_sz := by omega
    constructor
    · rw [deint_step_released, (updateHistory_full s h).2]
    · rw [deint_step_data, (updateHistory_full s h).1]

/-- Witness for C1 with backward = forward = 1 and three submitted
frames. -/
theorem C1_deinterlace_history_window_witness :
    ((0 : Nat) < 3 ∧ 0 + 1 < 1 + 1 + 1)
    ∧ (deintRun (deintInit 1 1)
        [⟨101, true, false⟩, ⟨102, true, false⟩, ⟨103, true, false⟩]).2[0]?
      = some ([], none) :=
  ⟨⟨by decide, by decide⟩,
    (C1_deinterlace_history_window 1 1).2.1
      [⟨101, true, false⟩, ⟨102, true, false⟩, ⟨103, true, false⟩] 0
      (by decide) (by decide)⟩

/-- C2: on a Steady history of size b + 1 + f with the current frame at
offset f, the forward reference array has length exactly f and holds the
surfaces of slots f-1 down to 0 (closest to current first), the backward
array has length exactly b and holds the surfaces of slots f+1 up to f+b
(closest first); the pipeline field-order flag is derived from the current
frame's metadata; every produced output is marked progressive and carries
exactly those reference arrays; and with b = f = 1 pushing F1, F2, F3
yields no output twice, then an output with F1 as forward-reference 0, F3
as backward-reference 0 and F2 as the current frame. -/
theorem C2_reference_frames :
    (∀ (b f : Nat) (hist : List Pic), hist.length = b + 1 + f →
      (Deinterlace_UpdateReferenceFrames ⟨hist, b + 1 + f, f, b⟩).2.length = f
      ∧ (Deinterlace_UpdateReferenceFrames ⟨hist, b + 1 + f, f, b⟩).1.length = b
      ∧ (∀ i, i < f →
          (Deinterlace_UpdateReferenceFrames ⟨hist, b + 1 + f, f, b⟩).2[i]?
            = some ((hist.getD (f - 1 - i) nullPic).surface))
      ∧ (∀ i, i < b →
          (Deinterlace_UpdateReferenceFrames ⟨hist, b + 1 + f, f, b⟩).1[i]?
            = some ((hist.getD (f + 1 + i) nullPic).surface))
      ∧ Deinterlace_filterFlags ⟨hist, b + 1 + f, f, b⟩
          = (if (hist.getD f nullPic).b_top_field_first then 0
              else VA_DEINTERLACING_BOTTOM_FIELD_FIRST))
    ∧ (∀ (d : DeintData) (s : Pic) (o : DeintOutput),
        (Deinterlace d s true).output = some o →
        o.dest.b_progressive = true
        ∧ o.dest = { o.cur with b_progressive := true }
        ∧ o.forward_refs =
            (Deinterlace_UpdateReferenceFrames (Deinterlace d s true).data).2
        ∧ o.backward_refs =
            (Deinterlace_UpdateReferenceFrames (Deinterlace d s true).data).1
        ∧ o.filter_flags = Deinterlace_filterFlags (Deinterlace d s true).data)
    ∧ (deintRun (deintInit 1 1)
        [⟨101, true, false⟩, ⟨102, true, false⟩, ⟨103, true, false⟩]).2
      = [([], none), ([], none),
        ([], some ⟨⟨102, true, false⟩, ⟨102, true, true⟩, [101], [103], 0⟩)] := by
  refine ⟨?_, ?_, ?_⟩
  · intro b f hist hlen
    refine ⟨?_, ?_, ?_, ?_, rfl⟩
    · simp [Deinterlace_UpdateReferenceFrames]
    · simp [Deinterlace_UpdateReferenceFrames]
    · intro i hi
      simp [Deinterlace_UpdateReferenceFrames, List.getElem?_map,
        List.getElem?_range, hi]
    · intro i hi
      simp [Deinterlace_UpdateReferenceFrames, List.getElem?_map,
        List.getElem?_range, hi]
  · intro d s o h
    simp only [Deinterlace] at h
    split at h
    · exact absurd h (by simp)
    · simp only [if_pos] at h
      injection h with h1
      subst h1
      exact ⟨rfl, rfl, rfl, rfl, rfl⟩
  · decide

/-- Witness for C2: the forward reference produced from the Steady history
F1, F2, F3 with b = f = 1 is the surface of F1. -/
theorem C2_reference_frames_witness :
    (([⟨101, true, false⟩, ⟨102, true, false⟩,
        (⟨103, true, false⟩ : Pic)].length = 1 + 1 + 1) ∧ (0 : Nat) < 1)
    ∧ (Deinterlace_UpdateReferenceFrames
        ⟨[⟨101, true, false⟩, ⟨102, true, false⟩, ⟨103, true, false⟩],
          1 + 1 + 1, 1, 1⟩).2[0]?
      = some (([⟨101, true, false⟩, ⟨102, true, false⟩,
          (⟨103, true, false⟩ : Pic)].getD (1 - 1 - 0) nullPic).surface) :=
  ⟨⟨by decide, by decide⟩,
    (C2_reference_frames.1 1 1
      [⟨101, true, false⟩, ⟨102, true, false⟩, ⟨103, true, false⟩]
      (by decide)).2.2.1 0 (by decide)⟩

end VaapiFilters
